import Mathlib

/-!
Shallow embedding of the video-job orchestration core of the qhacks backend:
the job lifecycle in backend/services/job_service.py (creation, local-queue
dispatch, pipeline execution, lazy status reconciliation), the operation
polling adapter in backend/services/vertex_service.py
(get_video_status_by_name), the HTTP-facing validation in
backend/controllers/jobs.py, and the request dataclass in
backend/models/job.py.

Modelling conventions: Python dicts holding job records become a structure
with one Option field per key (an absent key is none); byte strings become
lists of byte values; timestamps are carried as their ISO strings; the
external effects of one pipeline run (image fetch, image generation, blob
upload, operation submission) are an environment of Except-valued outcomes;
the generation backend seen by the resolver is a function from operation
names to raw operation snapshots.  uuid4 allocation is modelled as a fresh
counter supply.  asyncio.Queue is a FIFO list; the background worker task
handle is a list of liveness flags (head is the task currently referenced by
local_worker_task).
-/

namespace QhacksJobs

/-- Bytes of a fetched payload, each entry one byte value. -/
abbrev Bytes := List Nat

/-- Character-level embedding of str.startswith. -/
def strStartsWith (s p : String) : Bool := p.data.isPrefixOf s.data

/-- Whitespace stripped by str.strip. -/
def isSpaceChar (c : Char) : Bool := c == ' ' || c == '\t' || c == '\n' || c == '\r'

/-- Character-level embedding of str.strip. -/
def strTrim (s : String) : String :=
  String.mk (((s.data.dropWhile isSpaceChar).reverse.dropWhile isSpaceChar).reverse)

/-- Character-level embedding of str.lower. -/
def strToLower (s : String) : String := String.mk (s.data.map Char.toLower)

/-- Python truthiness of an optional string: None and the empty string are falsy. -/
def pyTruthyStr : Option String → Bool
  | none => false
  | some s => !(s == "")

/-- Python `a or b` on optional strings: yields b when a is falsy. -/
def pyOrStr (a b : Option String) : Option String :=
  if pyTruthyStr a then a else b

/-- Python truthiness of an optional byte string: None and empty bytes are falsy. -/
def pyTruthyBytes : Option Bytes → Bool
  | none => false
  | some l => !l.isEmpty

/-- Value found under the duration_seconds key of a payload dict: either an
int()-convertible value or one that makes int() raise. -/
inductive DurVal where
  | intVal (n : Int)
  | badVal
deriving Repr, DecidableEq

/-- Embedding of `int(job_data.get("duration_seconds", default))`: missing key
falls back to the default, an unconvertible value raises. -/
def pyInt (defaultVal : Int) : Option DurVal → Except String Int
  | none => .ok defaultVal
  | some (.intVal n) => .ok n
  | some .badVal => .error "invalid literal for int() with base 10"

/-- Embedding of `_looks_like_image` (job_service.py:54-67): magic-byte
sniffing for PNG, JPEG, GIF87a/GIF89a, WEBP and AVIF signatures. -/
def looksLikeImage (data : Bytes) : Bool :=
  if data.isEmpty then false
  else if [0x89, 0x50, 0x4E, 0x47, 0x0D, 0x0A, 0x1A, 0x0A].isPrefixOf data then true
  else if [0xFF, 0xD8, 0xFF].isPrefixOf data then true
  else if [0x47, 0x49, 0x46, 0x38, 0x37, 0x61].isPrefixOf data then true
  else if [0x47, 0x49, 0x46, 0x38, 0x39, 0x61].isPrefixOf data then true
  else if [0x52, 0x49, 0x46, 0x46].isPrefixOf data && ((data.drop 8).take 4 == [0x57, 0x45, 0x42, 0x50]) then true
  else if decide (data.length > 12) && ((data.drop 4).take 8 == [0x66, 0x74, 0x79, 0x70, 0x61, 0x76, 0x69, 0x66]) then true
  else false

/-- Restatement in the spec's words, for comparison with looksLikeImage: the
payload begins with one of the PNG, JPEG, GIF, WEBP or AVIF signatures. -/
def imageMagicSpec (data : Bytes) : Bool :=
  [0x89, 0x50, 0x4E, 0x47, 0x0D, 0x0A, 0x1A, 0x0A].isPrefixOf data ||
  [0xFF, 0xD8, 0xFF].isPrefixOf data ||
  [0x47, 0x49, 0x46, 0x38, 0x37, 0x61].isPrefixOf data ||
  [0x47, 0x49, 0x46, 0x38, 0x39, 0x61].isPrefixOf data ||
  ([0x52, 0x49, 0x46, 0x46].isPrefixOf data && ((data.drop 8).take 4 == [0x57, 0x45, 0x42, 0x50])) ||
  (decide (data.length > 12) && ((data.drop 4).take 8 == [0x66, 0x74, 0x79, 0x70, 0x61, 0x76, 0x69, 0x66]))

/-- Embedding of the response-acceptance decision inside `_fetch_image_bytes`
(job_service.py:124-166) for one HTTP response: a non-200 status yields
nothing; otherwise the payload is returned when the lowercased Content-Type
header begins with image/ or the payload passes magic-byte sniffing.  The
HTML-candidate fallback recursion is not modelled here: any bytes it returns
were accepted by this same test applied to a deeper response. -/
def responseOutcome (statusCode : Nat) (contentTypeLower : String) (payload : Bytes) : Option Bytes :=
  if statusCode ≠ 200 then none
  else if strStartsWith contentTypeLower "image/" || looksLikeImage payload then some payload
  else none

/-- Embedding of `normalize_shorts_style` / `normalize_style`
(utils/shorts_style.py): lowercase, trim, alias table, default action. -/
def normalizeStyle (style : Option String) : String :=
  let n := strToLower (strTrim (style.getD ""))
  if n == "action" || n == "action_commentary" || n == "realistic" || n == "sports" then
    "action"
  else if n == "animated" || n == "animation" || n == "2d" || n == "fantasy" ||
      n == "fantasy_ai_gen" || n == "vibe_music_edit" || n == "stylized" then
    "animated"
  else "action"

/-- Embedding of `_generate_signed_url` (job_service.py:278-287): empty or
non-gs:// URIs yield nothing, otherwise the public storage URL is derived. -/
def generateSignedUrl (gsUri : String) : Option String :=
  if gsUri == "" then none
  else if strStartsWith gsUri "gs://" then
    some ("https://storage.googleapis.com/" ++ gsUri.drop 5)
  else none

/-- Persisted job record (the JSON document under jobs/{id}.json), one Option
field per key that any write path of job_service.py ever sets. -/
structure JobRecord where
  status : String := ""
  job_start_time : Option String := none
  job_end_time : Option String := none
  title : Option String := none
  outcome : Option String := none
  original_bet_link : Option String := none
  duration_seconds : Option Int := none
  shorts_style : Option String := none
  source_image_url : Option String := none
  character_image_urls : Option (List String) := none
  image_uri : Option String := none
  operation_name : Option String := none
  video_uri : Option String := none
  video_url : Option String := none
  error : Option String := none
deriving Repr, DecidableEq

/-- Client-facing status view, embedding the JobStatus dataclass of
backend/models/job.py. -/
structure StatusView where
  status : String
  job_start_time : Option String := none
  job_end_time : Option String := none
  video_url : Option String := none
  error : Option String := none
  original_bet_link : Option String := none
  image_url : Option String := none
deriving Repr, DecidableEq

/-- Result payload of a finished backend operation: the produced video URIs. -/
structure OpResult where
  generated_videos : List String
deriving Repr, DecidableEq

/-- Raw snapshot of a backend long-running operation as seen by
client.operations.get in vertex_service.py. -/
structure BackendOp where
  done : Bool
  error : Option String := none
  result : Option OpResult := none
deriving Repr, DecidableEq

/-- Embedding of `VertexService.get_video_status_by_name`
(vertex_service.py:216-249) applied to an already-fetched operation
snapshot. -/
def getVideoStatusByName (op : BackendOp) : StatusView :=
  if op.done then
    match op.error with
    | some e => { status := "error", error := some ("Veo error: " ++ e) }
    | none =>
      match op.result with
      | some r =>
        match r.generated_videos with
        | v :: _ => { status := "done", video_url := some v }
        | [] => { status := "error", error := some "Veo completed but no video generated" }
      | none => { status := "error", error := some "Veo completed but no result returned" }
  else { status := "waiting" }

/-- Job record store: key to JSON document, newest write first. -/
abbrev Store := List (Nat × JobRecord)

/-- Lookup of the most recent document stored under a job id. -/
def storeLookup (s : Store) (jobId : Nat) : Option JobRecord :=
  match s with
  | [] => none
  | (k, r) :: rest => if k = jobId then some r else storeLookup rest jobId

/-- Full-document overwrite of the record stored under a job id. -/
def storeInsert (s : Store) (jobId : Nat) (r : JobRecord) : Store :=
  (jobId, r) :: s

/-- Payload dict handed to the worker for one job (the dict built in
create_video_job and consumed by process_video_job). -/
structure JobPayload where
  title : Option String := none
  outcome : Option String := none
  caption : Option String := none
  original_bet_link : Option String := none
  duration_seconds : Option DurVal := none
  shorts_style : Option String := none
  source_image_url : Option String := none
  character_image_urls : List String := []
deriving Repr, DecidableEq

/-- Item of the local asyncio queue. -/
structure QueueItem where
  job_id : Nat
  payload : JobPayload
deriving Repr, DecidableEq

/-- State of one JobService instance: configuration flags, the blob store,
both dispatch queues, the worker-task liveness history (head is the task
currently referenced by local_worker_task), and the fresh-id supply standing
in for uuid4. -/
structure ServiceState where
  bucket : Bool
  cloudTasks : Bool
  store : Store := []
  localQueue : List QueueItem := []
  cloudQueue : List QueueItem := []
  workerTasks : List Bool := []
  nextId : Nat := 0
deriving Repr, DecidableEq

/-- Embedding of `JobService._save_job` (job_service.py:320-325): a no-op when
no bucket is configured. -/
def saveJob (st : ServiceState) (jobId : Nat) (r : JobRecord) : ServiceState :=
  if st.bucket then { st with store := storeInsert st.store jobId r } else st

/-- Embedding of `JobService._load_job` (job_service.py:327-335): absent when
no bucket is configured or the key does not exist. -/
def loadJob (st : ServiceState) (jobId : Nat) : Option JobRecord :=
  if st.bucket then storeLookup st.store jobId else none

/-- Embedding of `JobService._ensure_local_worker` (job_service.py:337-344):
no-op under cloud tasks or while the referenced task is alive, otherwise a
fresh consumer loop is started. -/
def ensureLocalWorker (st : ServiceState) : ServiceState :=
  if st.cloudTasks then st
  else if st.workerTasks.head? = some true then st
  else { st with workerTasks := true :: st.workerTasks }

/-- Number of live local consumer loops. -/
def aliveCount (st : ServiceState) : Nat :=
  st.workerTasks.countP (fun b => b == true)

/-- Request object with exactly the attribute set that
`JobService.create_video_job` (job_service.py:358-392) reads.  This is wider
than the declared VideoJobRequest dataclass (videoJobRequestFields below),
which lacks shorts_style and character_image_urls; the program's resulting
AttributeError is modelled separately by createVideoJobOnDecl over
VideoJobRequestDecl, while this structure models the body's intended
duck-typed request. -/
structure VideoRequest where
  title : String
  outcome : String
  original_bet_link : String
  duration_seconds : Int := 8
  shorts_style : String := "action"
  source_image_url : Option String := none
  character_image_urls : List String := []
deriving Repr, DecidableEq

/-- Embedding of `JobService.create_video_job` (job_service.py:358-392):
allocate an id, persist the initial pending record, dispatch through exactly
one strategy, return the id.  No generation-backend effect appears. -/
def createVideoJob (st : ServiceState) (now : String) (req : VideoRequest) : ServiceState × Nat :=
  let jobId := st.nextId
  let st1 : ServiceState := { st with nextId := st.nextId + 1 }
  let record0 : JobRecord := {
    status := "pending",
    job_start_time := some now,
    title := some req.title,
    outcome := some req.outcome,
    original_bet_link := some req.original_bet_link,
    duration_seconds := some req.duration_seconds,
    shorts_style := some req.shorts_style,
    source_image_url := req.source_image_url,
    character_image_urls := some req.character_image_urls }
  let st2 := saveJob st1 jobId record0
  let payload : JobPayload := {
    title := some req.title,
    outcome := some req.outcome,
    original_bet_link := some req.original_bet_link,
    duration_seconds := some (DurVal.intVal req.duration_seconds),
    shorts_style := some req.shorts_style,
    source_image_url := req.source_image_url,
    character_image_urls := req.character_image_urls }
  let item : QueueItem := { job_id := jobId, payload := payload }
  if st2.cloudTasks then
    ({ st2 with cloudQueue := st2.cloudQueue ++ [item] }, jobId)
  else
    let st3 := ensureLocalWorker st2
    ({ st3 with localQueue := st3.localQueue ++ [item] }, jobId)

/-- Decidable equality for Except values, used to evaluate concrete pipeline
outcomes. -/
def exceptDecEq {ε α : Type} [DecidableEq ε] [DecidableEq α] : DecidableEq (Except ε α) := fun x y =>
  match x, y with
  | .error a, .error b =>
    if h : a = b then isTrue (by rw [h]) else isFalse (by intro hc; cases hc; exact h rfl)
  | .ok a, .ok b =>
    if h : a = b then isTrue (by rw [h]) else isFalse (by intro hc; cases hc; exact h rfl)
  | .error _, .ok _ => isFalse (by intro hc; cases hc)
  | .ok _, .error _ => isFalse (by intro hc; cases hc)

instance {ε α : Type} [DecidableEq ε] [DecidableEq α] : DecidableEq (Except ε α) := exceptDecEq

/-- Outcomes of the external effects of one pipeline run: source-image fetch,
character-image load, backend image generation, blob upload, and
video-operation submission (Except.error is a raised exception). -/
structure ExecEnv where
  fetchSource : Except String (Option Bytes)
  charLoad : Except String (List Bytes)
  genImage : Except String Bytes
  uploadImage : Except String String
  submitVideo : Except String String
deriving Repr, DecidableEq

/-- Embedding of the try-block of `JobService.process_video_job`
(job_service.py:400-475): payload parsing, starting-image resolution with
backend fallback, upload, operation submission, and the processing checkpoint
record.  URL-validity filtering of character image URLs is abstracted into
the charLoad effect. -/
def processAttempt (env : ExecEnv) (bucket : Bool) (startFrom : Option String)
    (jobData : JobPayload) : Except String JobRecord :=
  match jobData.title with
  | none => .error "KeyError: title"
  | some title =>
    match strTrim ((pyOrStr jobData.outcome jobData.caption).getD "") == "" with
    | true => .error "outcome is required"
    | false =>
      match jobData.original_bet_link with
      | none => .error "KeyError: original_bet_link"
      | some originalBetLink =>
        match pyInt 8 jobData.duration_seconds with
        | .error m => .error m
        | .ok duration =>
          match (if pyTruthyStr jobData.source_image_url then env.fetchSource else .ok none) with
          | .error m => .error m
          | .ok sourceImage =>
            match (if jobData.character_image_urls.isEmpty then .ok [] else env.charLoad) with
            | .error m => .error m
            | .ok _chars =>
              match (if pyTruthyBytes sourceImage then .ok (sourceImage.getD []) else env.genImage) with
              | .error m => .error m
              | .ok _firstImage =>
                match (if bucket then env.uploadImage else .ok "") with
                | .error m => .error m
                | .ok imageUri =>
                  match env.submitVideo with
                  | .error m => .error m
                  | .ok opName =>
                    .ok { status := "processing",
                          operation_name := some opName,
                          job_start_time := startFrom,
                          title := some title,
                          outcome := some (strTrim ((pyOrStr jobData.outcome jobData.caption).getD "")),
                          original_bet_link := some originalBetLink,
                          duration_seconds := some duration,
                          shorts_style := some (normalizeStyle jobData.shorts_style),
                          image_uri := some imageUri }

/-- Embedding of the try/except structure of `process_video_job`
(job_service.py:400-488): a failed attempt is converted into an error record
by the except block, whose own duration re-parse may itself raise and
propagate. -/
def processRecord (env : ExecEnv) (bucket : Bool) (startFrom : Option String)
    (jobData : JobPayload) : Except String JobRecord :=
  match processAttempt env bucket startFrom jobData with
  | .ok r => .ok r
  | .error msg =>
    match pyInt 8 jobData.duration_seconds with
    | .error m2 => .error m2
    | .ok duration2 =>
      .ok { status := "error",
            error := some msg,
            job_start_time := startFrom,
            title := jobData.title,
            outcome := pyOrStr jobData.outcome jobData.caption,
            original_bet_link := jobData.original_bet_link,
            duration_seconds := some duration2,
            shorts_style := some (normalizeStyle jobData.shorts_style) }

/-- Start time recorded by process_video_job: the stored one when a record
already exists, else the time the worker picked the job up. -/
def startTimeFrom (existing : Option JobRecord) (startTime : String) : Option String :=
  match existing with
  | some ej => ej.job_start_time
  | none => some startTime

/-- Embedding of `JobService.process_video_job` (job_service.py:394-488): the
single record save of whichever path terminates; a propagated exception saves
nothing. -/
def processVideoJob (env : ExecEnv) (st : ServiceState) (jobId : Nat)
    (jobData : JobPayload) (startTime : String) : Except String ServiceState :=
  match processRecord env st.bucket (startTimeFrom (loadJob st jobId) startTime) jobData with
  | .ok r => .ok (saveJob st jobId r)
  | .error m => .error m

/-- Embedding of one iteration of `JobService._local_worker_loop`
(job_service.py:346-356): a raised exception is caught at the loop boundary
and the loop continues. -/
def localWorkerStep (env : ExecEnv) (st : ServiceState) (item : QueueItem)
    (startTime : String) : ServiceState :=
  match processVideoJob env st item.job_id item.payload startTime with
  | .ok st' => st'
  | .error _ => st

/-- Running the local worker loop for up to n dequeues, recording the order in
which job ids are processed. -/
def drainLocal (env : ExecEnv) (startTime : String) : Nat → ServiceState → ServiceState × List Nat
  | 0, st => (st, [])
  | n + 1, st =>
    match st.localQueue with
    | [] => (st, [])
    | item :: rest =>
      let st1 := localWorkerStep env { st with localQueue := rest } item startTime
      let out := drainLocal env startTime n st1
      (out.1, item.job_id :: out.2)

/-- Client URL derived from a freshly polled video reference
(job_service.py:526-527): absent or empty references yield none. -/
def resolvedVideoUrl (v : Option String) : Option String :=
  if pyTruthyStr v then generateSignedUrl (v.getD "") else none

/-- Client URL shown for a stored done record (job_service.py:516-520): the
stored video_url, overridden by a URL derived from a non-empty stored
video_uri. -/
def storedVideoUrl (job : JobRecord) : Option String :=
  match job.video_uri with
  | some u => if u == "" then job.video_url else generateSignedUrl u
  | none => job.video_url

/-- Embedding of `JobService.get_job_status` (job_service.py:490-542).
Returns the client view (none for not found), the post-call service state,
and the number of backend polls performed during the call. -/
def getJobStatus (st : ServiceState) (jobId : Nat) (backend : String → BackendOp)
    (now : String) : Option StatusView × ServiceState × Nat :=
  match loadJob st jobId with
  | none => (none, st, 0)
  | some job =>
    let jst := job.job_start_time
    let jet := job.job_end_time
    let obl := job.original_bet_link
    let img := job.image_uri
    if job.status == "pending" || job.status == "queued" then
      (some { status := "waiting", job_start_time := jst, original_bet_link := obl, image_url := img }, st, 0)
    else if job.status == "error" then
      (some { status := "error", job_start_time := jst, job_end_time := jet,
              error := job.error, original_bet_link := obl, image_url := img }, st, 0)
    else if job.status == "done" then
      (some { status := "done", job_start_time := jst, job_end_time := jet,
              video_url := storedVideoUrl job, original_bet_link := obl, image_url := img }, st, 0)
    else if job.status == "processing" && pyTruthyStr job.operation_name then
      let result := getVideoStatusByName (backend (job.operation_name.getD ""))
      if result.status == "done" then
        let videoUri := result.video_url
        let videoUrl := resolvedVideoUrl videoUri
        let job' := { job with status := "done", video_uri := videoUri,
                               video_url := videoUrl, job_end_time := some now }
        (some { status := "done", job_start_time := jst, job_end_time := jet,
                video_url := videoUrl, original_bet_link := obl, image_url := img },
         saveJob st jobId job', 1)
      else if result.status == "error" then
        let job' := { job with status := "error", error := result.error }
        (some { status := "error", error := result.error, original_bet_link := obl, image_url := img },
         saveJob st jobId job', 1)
      else
        (some { status := "waiting", job_start_time := jst, original_bet_link := obl, image_url := img }, st, 1)
    else
      (some { status := "waiting", job_start_time := jst, original_bet_link := obl, image_url := img }, st, 0)

/-- State transformer of one client status poll (the store effect of
get_job_status). -/
def resolveStep (backend : String → BackendOp) (now : String) (jobId : Nat)
    (st : ServiceState) : ServiceState :=
  (getJobStatus st jobId backend now).2.1

/-- Backend whose operations never complete. -/
def pendingBackend : String → BackendOp := fun _ => { done := false }

/-- Request body of the create endpoint with the alias keys read by
`Jobs._coerce_payload` (controllers/jobs.py:36-61); character image URLs are
taken after list coercion. -/
structure RequestBody where
  title : Option String := none
  outcome : Option String := none
  caption : Option String := none
  original_bet_link : Option String := none
  originalBetLink : Option String := none
  bet_link : Option String := none
  duration_seconds : Option DurVal := none
  shorts_style : Option String := none
  shortsStyle : Option String := none
  style : Option String := none
  source_image_url : Option String := none
  sourceImageUrl : Option String := none
  character_image_urls : List String := []
deriving Repr, DecidableEq

/-- Dict produced by `Jobs._coerce_payload`. -/
structure CoercedPayload where
  title : Option String
  outcome : Option String
  original_bet_link : Option String
  duration_seconds : Option DurVal
  shorts_style : Option String
  source_image_url : Option String
  character_image_urls : List String
deriving Repr, DecidableEq

/-- Embedding of `Jobs._coerce_payload` (controllers/jobs.py:36-61): alias
resolution with Python or-chains.  The duration key is always present in the
result, defaulted to 8 when the body lacks it. -/
def coercePayload (b : RequestBody) : CoercedPayload :=
  { title := b.title,
    outcome := pyOrStr b.outcome b.caption,
    original_bet_link := pyOrStr b.original_bet_link (pyOrStr b.originalBetLink b.bet_link),
    duration_seconds := some (b.duration_seconds.getD (DurVal.intVal 8)),
    shorts_style := pyOrStr b.shorts_style (pyOrStr b.shortsStyle b.style),
    source_image_url := pyOrStr b.source_image_url b.sourceImageUrl,
    character_image_urls := b.character_image_urls }

/-- Outcome of the create endpoint: a 400 client error or a created job id. -/
inductive CreateResult where
  | clientError (msg : String)
  | created (jobId : Nat)
deriving Repr, DecidableEq

/-- Embedding of `Jobs.create_job` (controllers/jobs.py:63-135): coercion,
required-field validation with a synchronous 400 on failure, duration
clamping, and dispatch through createVideoJob only when validation passes. -/
def createEndpoint (st : ServiceState) (body : RequestBody) (now : String) : CreateResult × ServiceState :=
  let payload := coercePayload body
  let title := strTrim (payload.title.getD "")
  let outcome := strTrim (payload.outcome.getD "")
  let originalBetLink := strTrim (payload.original_bet_link.getD "")
  if title == "" || outcome == "" || originalBetLink == "" then
    (CreateResult.clientError "title, outcome, and original_bet_link are required", st)
  else
    let duration : Int :=
      match pyInt 6 payload.duration_seconds with
      | .ok n => n
      | .error _ => 6
    let style := normalizeStyle payload.shorts_style
    let sourceTrimmed := strTrim ((pyOrStr payload.source_image_url (some "")).getD "")
    let sourceImageUrl : Option String := if sourceTrimmed == "" then none else some sourceTrimmed
    let charUrls := payload.character_image_urls.filter (fun u => !(u == ""))
    let req : VideoRequest := {
      title := title,
      outcome := outcome,
      original_bet_link := originalBetLink,
      duration_seconds := max 5 (min duration 8),
      shorts_style := style,
      source_image_url := sourceImageUrl,
      character_image_urls := charUrls }
    let out := createVideoJob st now req
    (CreateResult.created out.2, out.1)

/-- Outcome of the status endpoint (controllers/jobs.py:137-158). -/
inductive StatusResult where
  | notFound
  | ok (v : StatusView)
deriving Repr, DecidableEq

/-- Embedding of `Jobs.get_status` (controllers/jobs.py:137-158): a missing
record is a distinct 404 outcome. -/
def getStatusEndpoint (st : ServiceState) (jobId : Nat) (backend : String → BackendOp)
    (now : String) : StatusResult × ServiceState :=
  match getJobStatus st jobId backend now with
  | (none, st', _) => (StatusResult.notFound, st')
  | (some v, st', _) => (StatusResult.ok v, st')

/-- Field list of the VideoJobRequest dataclass as declared in
backend/models/job.py:5-12. -/
def videoJobRequestFields : List String :=
  ["title", "outcome", "original_bet_link", "duration_seconds", "source_image_url"]

/-- Keyword arguments passed to the VideoJobRequest constructor by
`Jobs.create_job` (controllers/jobs.py:121-129). -/
def controllerCreateKwargs : List String :=
  ["title", "outcome", "original_bet_link", "duration_seconds", "shorts_style",
   "source_image_url", "character_image_urls"]

/-- Attributes read from the request object by `JobService.create_video_job`
(job_service.py:358-392). -/
def createVideoJobAttrReads : List String :=
  ["title", "outcome", "original_bet_link", "duration_seconds", "shorts_style",
   "source_image_url", "character_image_urls"]

/-- Whether a Python dataclass constructor call with the given keyword
arguments raises TypeError against the given declared field list. -/
def dataclassCallRaises (fields kwargs : List String) : Bool :=
  kwargs.any (fun k => !(fields.contains k))

/-- Concrete processing record used to exercise the resolver completion path. -/
def c1Rec : JobRecord :=
  { status := "processing", operation_name := some "op1", job_start_time := some "t0" }

/-- Concrete service state holding c1Rec under job id 0. -/
def c1St : ServiceState := { bucket := true, cloudTasks := false, store := [(0, c1Rec)] }

/-- Backend reporting completion with one produced video. -/
def c1Backend : String → BackendOp :=
  fun _ => { done := true, error := none, result := some { generated_videos := ["gs://b/v.mp4"] } }

/-- Concrete processing record used to exercise unbounded still-pending polling. -/
def c2Rec : JobRecord :=
  { status := "processing", operation_name := some "op2", job_start_time := some "t0" }

/-- Concrete service state holding c2Rec under job id 0. -/
def c2St : ServiceState := { bucket := true, cloudTasks := false, store := [(0, c2Rec)] }

/-- Concrete processing record without job_end_time for the error write-back path. -/
def c4Rec : JobRecord :=
  { status := "processing", operation_name := some "op4", job_start_time := some "t0" }

/-- Concrete service state holding c4Rec under job id 0. -/
def c4St : ServiceState := { bucket := true, cloudTasks := false, store := [(0, c4Rec)] }

/-- Backend reporting a failed operation. -/
def c4ErrBackend : String → BackendOp :=
  fun _ => { done := true, error := some "boom", result := none }

/-- Record the resolver error write-back is expected to persist for c4Rec. -/
def c4ExpectedRec : JobRecord :=
  { c4Rec with status := "error", error := some "Veo error: boom" }

/-- Pipeline environment whose image-generation call fails. -/
def c4Env : ExecEnv :=
  { fetchSource := .ok none, charLoad := .ok [], genImage := .error "gen boom",
    uploadImage := .ok "", submitVideo := .ok "op4" }

/-- Minimal valid worker payload. -/
def c4Payload : JobPayload :=
  { title := some "X", outcome := some "Y", original_bet_link := some "http://a" }

/-- Empty-store service state with persistence enabled. -/
def c4St0 : ServiceState := { bucket := true, cloudTasks := false }

/-- Error record the executor is expected to persist for c4Payload under
c4Env. -/
def c4ExecRec : JobRecord :=
  { status := "error", error := some "gen boom", job_start_time := some "t0",
    title := some "X", outcome := some "Y", original_bet_link := some "http://a",
    duration_seconds := some 8, shorts_style := some "action" }

/-- Concrete terminal record for resolver idempotence. -/
def c6Rec : JobRecord :=
  { status := "done", video_uri := some "gs://b/v6.mp4", job_start_time := some "t0",
    job_end_time := some "t1" }

/-- Concrete service state holding c6Rec under job id 0. -/
def c6St : ServiceState := { bucket := true, cloudTasks := false, store := [(0, c6Rec)] }

/-- Minimal valid worker payload for the executor containment property. -/
def c7Payload : JobPayload :=
  { title := some "X", outcome := some "Y", original_bet_link := some "http://a" }

/-- Pipeline environment whose backend starting-image call fails. -/
def c7Env : ExecEnv :=
  { fetchSource := .ok none, charLoad := .ok [], genImage := .error "gen boom",
    uploadImage := .ok "", submitVideo := .ok "op7" }

/-- Pipeline environment whose blob upload of the starting image fails. -/
def c7EnvUp : ExecEnv :=
  { fetchSource := .ok none, charLoad := .ok [], genImage := .ok [1],
    uploadImage := .error "upload boom", submitVideo := .ok "op7" }

/-- Pipeline environment whose video-operation submission fails. -/
def c7EnvSub : ExecEnv :=
  { fetchSource := .ok none, charLoad := .ok [], genImage := .ok [1],
    uploadImage := .ok "gs://b/i.png", submitVideo := .error "submit boom" }

/-- Empty-store service state with persistence enabled. -/
def c7St : ServiceState := { bucket := true, cloudTasks := false }

/-- Error record written by the except block of process_video_job
(job_service.py:479-488) when the try block raised with reason m and the
duration re-parse yielded d. -/
def executorErrRecord (startFrom : Option String) (jobData : JobPayload) (m : String)
    (d : Int) : JobRecord :=
  { status := "error", error := some m, job_start_time := startFrom,
    title := jobData.title, outcome := pyOrStr jobData.outcome jobData.caption,
    original_bet_link := jobData.original_bet_link, duration_seconds := some d,
    shorts_style := some (normalizeStyle jobData.shorts_style) }

/-- Service state with one live worker loop and two queued jobs. -/
def c8St : ServiceState :=
  { bucket := false, cloudTasks := false, workerTasks := [true],
    localQueue := [{ job_id := 3, payload := c7Payload }, { job_id := 5, payload := c7Payload }] }

/-- Fully succeeding pipeline environment. -/
def c8Env : ExecEnv :=
  { fetchSource := .ok none, charLoad := .ok [], genImage := .ok [1],
    uploadImage := .ok "gs://b/i.png", submitVideo := .ok "op8" }

/-- Create request body with the outcome field (and its alias) missing. -/
def c9Body : RequestBody :=
  { title := some "X", original_bet_link := some "http://a" }

/-- Service state before the rejected create call. -/
def c9St : ServiceState := { bucket := true, cloudTasks := false }

/-- Service state with persistence disabled. -/
def c10St : ServiceState := { bucket := false, cloudTasks := false }

/-- Embedding of the VideoJobRequest dataclass exactly as declared in
backend/models/job.py:5-12: these five fields and no others. -/
structure VideoJobRequestDecl where
  title : String
  outcome : String
  original_bet_link : String
  duration_seconds : Int := 8
  source_image_url : Option String := none
deriving Repr, DecidableEq

/-- First attribute that create_video_job reads (in source order,
job_service.py:366-372) which the declared dataclass does not define - the
read at which Python raises AttributeError. -/
def firstMissingAttrRead : Option String :=
  createVideoJobAttrReads.find? (fun a => !(videoJobRequestFields.contains a))

/-- Embedding of `JobService.create_video_job` invoked on an instance of the
declared VideoJobRequest dataclass: the body reads the attributes listed in
createVideoJobAttrReads, so its first read of an undeclared attribute raises
AttributeError before anything is persisted or dispatched; only if every
read were declared would the body proceed as createVideoJob. -/
def createVideoJobOnDecl (st : ServiceState) (now : String) (req : VideoJobRequestDecl) :
    Except String (ServiceState × Nat) :=
  match firstMissingAttrRead with
  | some a => .error ("AttributeError: " ++ a)
  | none =>
    .ok (createVideoJob st now
      { title := req.title, outcome := req.outcome,
        original_bet_link := req.original_bet_link,
        duration_seconds := req.duration_seconds,
        source_image_url := req.source_image_url })

/-- Valid instance of the declared dataclass used against the
persistence-disabled state. -/
def c10ReqDecl : VideoJobRequestDecl :=
  { title := "X", outcome := "Y", original_bet_link := "http://a" }

/-- Pipeline environment with all effects succeeding trivially. -/
def c10Env : ExecEnv :=
  { fetchSource := .ok none, charLoad := .ok [], genImage := .ok [],
    uploadImage := .ok "", submitVideo := .ok "" }

theorem storeLookup_insert_self (s : Store) (jobId : Nat) (r : JobRecord) :
    storeLookup (storeInsert s jobId r) jobId = some r := by
  simp [storeInsert, storeLookup]

theorem saveJob_localQueue (st : ServiceState) (jobId : Nat) (r : JobRecord) :
    (saveJob st jobId r).localQueue = st.localQueue := by
  unfold saveJob; split <;> rfl

theorem saveJob_bucket (st : ServiceState) (jobId : Nat) (r : JobRecord) :
    (saveJob st jobId r).bucket = st.bucket := by
  unfold saveJob; split <;> rfl

theorem saveJob_no_bucket (st : ServiceState) (jobId : Nat) (r : JobRecord)
    (h : st.bucket = false) : saveJob st jobId r = st := by
  simp [saveJob, h]

theorem processAttempt_ok_shape (env : ExecEnv) (bucket : Bool) (startFrom : Option String)
    (jd : JobPayload) (r : JobRecord) (h : processAttempt env bucket startFrom jd = Except.ok r) :
    r.status = "processing" ∧ r.job_end_time = none ∧ ∃ opn, r.operation_name = some opn := by
  unfold processAttempt at h
  repeat' split at h
  all_goals cases h
  all_goals exact ⟨rfl, rfl, _, rfl⟩

theorem processRecord_ok_shape (env : ExecEnv) (bucket : Bool) (startFrom : Option String)
    (jd : JobPayload) (r : JobRecord) (h : processRecord env bucket startFrom jd = Except.ok r) :
    r.job_end_time = none ∧
      (r.status = "processing" ∨ (r.status = "error" ∧ ∃ m, r.error = some m)) := by
  unfold processRecord at h
  split at h
  case _ heq =>
    cases h
    rcases processAttempt_ok_shape env bucket startFrom jd r heq with ⟨h1, h2, _⟩
    exact ⟨h2, Or.inl h1⟩
  case _ =>
    split at h
    · cases h
    · cases h
      exact ⟨rfl, Or.inr ⟨rfl, _, rfl⟩⟩

theorem processRecord_ok_of_dur (env : ExecEnv) (bucket : Bool) (startFrom : Option String)
    (jd : JobPayload) (d : Int) (hdur : pyInt 8 jd.duration_seconds = Except.ok d) :
    ∃ r, processRecord env bucket startFrom jd = Except.ok r := by
  unfold processRecord
  split
  · exact ⟨_, rfl⟩
  · rw [hdur]
    exact ⟨_, rfl⟩

theorem processVideoJob_ok_shape (env : ExecEnv) (st : ServiceState) (jobId : Nat)
    (jd : JobPayload) (startTime : String) (st' : ServiceState)
    (h : processVideoJob env st jobId jd startTime = Except.ok st') :
    ∃ r, st' = saveJob st jobId r ∧
      processRecord env st.bucket (startTimeFrom (loadJob st jobId) startTime) jd = Except.ok r := by
  unfold processVideoJob at h
  split at h
  case _ r heq =>
    cases h
    exact ⟨r, rfl, heq⟩
  case _ => cases h

theorem localWorkerStep_localQueue (env : ExecEnv) (st : ServiceState) (item : QueueItem)
    (startTime : String) :
    (localWorkerStep env st item startTime).localQueue = st.localQueue := by
  unfold localWorkerStep
  split
  case _ st' h =>
    rcases processVideoJob_ok_shape env st item.job_id item.payload startTime st' h with ⟨r, hr, _⟩
    rw [hr, saveJob_localQueue]
  case _ => rfl

theorem startsWith_gs_ne_empty (u : String) (h : strStartsWith u "gs://" = true) : u ≠ "" := by
  intro he
  rw [he] at h
  exact absurd h (by decide)

theorem getJobStatus_processing_still_pending
    (st : ServiceState) (jobId : Nat) (job : JobRecord)
    (backend : String → BackendOp) (now : String) (opName : String)
    (hload : loadJob st jobId = some job)
    (hstatus : job.status = "processing")
    (hop : job.operation_name = some opName)
    (hopne : opName ≠ "")
    (hdone : (backend opName).done = false) :
    getJobStatus st jobId backend now =
      (some { status := "waiting", job_start_time := job.job_start_time,
              original_bet_link := job.original_bet_link, image_url := job.image_uri },
       st, 1) := by
  have hopbeq : (opName == "") = false := by simpa using hopne
  have hview : getVideoStatusByName (backend opName) = { status := "waiting" } := by
    unfold getVideoStatusByName
    rw [hdone]
    simp
  simp only [getJobStatus, hload, hstatus, hop, pyTruthyStr, hopbeq, Option.getD_some]
  simp [hview]

/-- C1: for a stored record in status processing with a non-empty
operation_name, get_job_status performs exactly one fresh backend poll; when
the backend reports completion with a video reference, it persists a record
with status done, the video reference, the derived public video_url and
job_end_time, and returns a done view carrying that video_url; when the
backend reports still-pending, it returns a waiting view and leaves the
service state untouched. -/
theorem c1_resolver_fresh_poll
    (st : ServiceState) (jobId : Nat) (job : JobRecord)
    (backend : String → BackendOp) (now : String) (opName : String)
    (hload : loadJob st jobId = some job)
    (hstatus : job.status = "processing")
    (hop : job.operation_name = some opName)
    (hopne : opName ≠ "") :
    (∀ uri rest,
      backend opName = { done := true, error := none,
                         result := some { generated_videos := uri :: rest } } →
      strStartsWith uri "gs://" = true →
      ∃ job',
        getJobStatus st jobId backend now =
          (some { status := "done", job_start_time := job.job_start_time,
                  job_end_time := job.job_end_time,
                  video_url := some ("https://storage.googleapis.com/" ++ uri.drop 5),
                  original_bet_link := job.original_bet_link, image_url := job.image_uri },
           saveJob st jobId job', 1) ∧
        job'.status = "done" ∧ job'.video_uri = some uri ∧
        job'.video_url = some ("https://storage.googleapis.com/" ++ uri.drop 5) ∧
        job'.job_end_time = some now) ∧
    ((backend opName).done = false →
      getJobStatus st jobId backend now =
        (some { status := "waiting", job_start_time := job.job_start_time,
                original_bet_link := job.original_bet_link, image_url := job.image_uri },
         st, 1)) := by
  have hopbeq : (opName == "") = false := by
    simpa using hopne
  constructor
  · intro uri rest hB hgs
    have hune : uri ≠ "" := startsWith_gs_ne_empty uri hgs
    have hubeq : (uri == "") = false := by simpa using hune
    refine ⟨{ job with status := "done", video_uri := some uri, video_url := some ("https://storage.googleapis.com/" ++ uri.drop 5), job_end_time := some now }, ?_, rfl, rfl, rfl, rfl⟩
    have hview : getVideoStatusByName (backend opName) = { status := "done", video_url := some uri } := by
      rw [hB]
      rfl
    simp only [getJobStatus, hload, hstatus, hop, pyTruthyStr, hopbeq, Option.getD_some]
    simp [hview, hubeq, hgs, hune, generateSignedUrl, resolvedVideoUrl, pyTruthyStr]
  · intro hdone
    exact getJobStatus_processing_still_pending st jobId job backend now opName
      hload hstatus hop hopne hdone

/-- Witness for c1_resolver_fresh_poll at a concrete processing record and a
backend that reports completion with video reference gs://b/v.mp4. -/
theorem c1_poll_witness :
    ∃ job', getJobStatus c1St 0 c1Backend "t1" =
      (some { status := "done", job_start_time := c1Rec.job_start_time,
              job_end_time := c1Rec.job_end_time,
              video_url := some ("https://storage.googleapis.com/" ++ ("gs://b/v.mp4".drop 5)),
              original_bet_link := c1Rec.original_bet_link, image_url := c1Rec.image_uri },
       saveJob c1St 0 job', 1) ∧
      job'.status = "done" ∧ job'.video_uri = some "gs://b/v.mp4" ∧
      job'.video_url = some ("https://storage.googleapis.com/" ++ ("gs://b/v.mp4".drop 5)) ∧
      job'.job_end_time = some "t1" :=
  (c1_resolver_fresh_poll c1St 0 c1Rec c1Backend "t1" "op1" rfl rfl rfl
    (by decide)).1 "gs://b/v.mp4" [] rfl (by decide)

set_option maxRecDepth 4000 in
/-- C2 counterexample: a job whose submitted operation never completes is
polled 61 times by status calls - more than the claimed 60-attempt ceiling -
yet its stored record still has status processing with no error field, and
the service state is unchanged: no timeout-shaped terminal error record is
ever written. -/
theorem c2_poll_ceiling_counterexample :
    storeLookup c2St.store 0 = some c2Rec ∧
    c2Rec.status = "processing" ∧ c2Rec.error = none ∧
    (resolveStep pendingBackend "t1" 0)^[61] c2St = c2St ∧
    storeLookup ((resolveStep pendingBackend "t1" 0)^[61] c2St).store 0 = some c2Rec ∧
    (getJobStatus c2St 0 pendingBackend "t1").1 =
      some { status := "waiting", job_start_time := some "t0" } := by
  decide

/-- C2 amended: the executor performs no polling of the operation handle and
sets no timeout; completion is resolved only by one backend poll per
get_job_status call, and under a backend that never completes the operation
any number of status polls leaves the stored record untouched (the job stays
in processing) while each call returns a waiting view - there is no attempt
ceiling after which an error record is written. -/
theorem c2_lazy_reconciliation_no_timeout
    (st : ServiceState) (jobId : Nat) (job : JobRecord)
    (now : String) (opName : String)
    (hload : loadJob st jobId = some job)
    (hstatus : job.status = "processing")
    (hop : job.operation_name = some opName)
    (hopne : opName ≠ "") :
    (∀ n : Nat, (resolveStep pendingBackend now jobId)^[n] st = st) ∧
    (getJobStatus st jobId pendingBackend now).1 =
      some { status := "waiting", job_start_time := job.job_start_time,
             original_bet_link := job.original_bet_link, image_url := job.image_uri } ∧
    (getJobStatus st jobId pendingBackend now).2.2 = 1 := by
  have hstep := getJobStatus_processing_still_pending st jobId job pendingBackend now opName
    hload hstatus hop hopne rfl
  have hfix : resolveStep pendingBackend now jobId st = st := by
    unfold resolveStep
    rw [hstep]
  exact ⟨fun n => Function.iterate_fixed hfix n, by rw [hstep], by rw [hstep]⟩

theorem getJobStatus_processing_done_branch
    (st : ServiceState) (jobId : Nat) (job : JobRecord)
    (backend : String → BackendOp) (now : String) (opName : String)
    (hload : loadJob st jobId = some job)
    (hstatus : job.status = "processing")
    (hop : job.operation_name = some opName)
    (hopne : opName ≠ "")
    (hdone : (getVideoStatusByName (backend opName)).status = "done") :
    getJobStatus st jobId backend now =
      (some { status := "done", job_start_time := job.job_start_time,
              job_end_time := job.job_end_time,
              video_url := resolvedVideoUrl (getVideoStatusByName (backend opName)).video_url,
              original_bet_link := job.original_bet_link, image_url := job.image_uri },
       saveJob st jobId { job with status := "done", video_uri := (getVideoStatusByName (backend opName)).video_url, video_url := resolvedVideoUrl (getVideoStatusByName (backend opName)).video_url, job_end_time := some now },
       1) := by
  have hopbeq : (opName == "") = false := by simpa using hopne
  simp only [getJobStatus, hload, hstatus, hop, pyTruthyStr, hopbeq, Option.getD_some]
  simp [hdone]

theorem getJobStatus_processing_error_branch
    (st : ServiceState) (jobId : Nat) (job : JobRecord)
    (backend : String → BackendOp) (now : String) (opName : String)
    (hload : loadJob st jobId = some job)
    (hstatus : job.status = "processing")
    (hop : job.operation_name = some opName)
    (hopne : opName ≠ "")
    (herr : (getVideoStatusByName (backend opName)).status = "error") :
    getJobStatus st jobId backend now =
      (some { status := "error", error := (getVideoStatusByName (backend opName)).error,
              original_bet_link := job.original_bet_link, image_url := job.image_uri },
       saveJob st jobId { job with status := "error", error := (getVideoStatusByName (backend opName)).error },
       1) := by
  have hopbeq : (opName == "") = false := by simpa using hopne
  simp only [getJobStatus, hload, hstatus, hop, pyTruthyStr, hopbeq, Option.getD_some]
  simp [herr]

theorem getJobStatus_done_record
    (st : ServiceState) (jobId : Nat) (job : JobRecord)
    (backend : String → BackendOp) (now : String)
    (hload : loadJob st jobId = some job)
    (hstatus : job.status = "done") :
    getJobStatus st jobId backend now =
      (some { status := "done", job_start_time := job.job_start_time,
              job_end_time := job.job_end_time, video_url := storedVideoUrl job,
              original_bet_link := job.original_bet_link, image_url := job.image_uri },
       st, 0) := by
  simp only [getJobStatus, hload, hstatus]
  simp

theorem getJobStatus_error_record
    (st : ServiceState) (jobId : Nat) (job : JobRecord)
    (backend : String → BackendOp) (now : String)
    (hload : loadJob st jobId = some job)
    (hstatus : job.status = "error") :
    getJobStatus st jobId backend now =
      (some { status := "error", job_start_time := job.job_start_time,
              job_end_time := job.job_end_time, error := job.error,
              original_bet_link := job.original_bet_link, image_url := job.image_uri },
       st, 0) := by
  simp only [getJobStatus, hload, hstatus]
  simp

/-- Witness for c2_lazy_reconciliation_no_timeout at the concrete processing
record c2Rec, instantiating the unbounded-poll clause at 61 iterations. -/
theorem c2_no_timeout_witness :
    (resolveStep pendingBackend "t1" 0)^[61] c2St = c2St ∧
    (getJobStatus c2St 0 pendingBackend "t1").1 =
      some { status := "waiting", job_start_time := c2Rec.job_start_time,
             original_bet_link := c2Rec.original_bet_link, image_url := c2Rec.image_uri } ∧
    (getJobStatus c2St 0 pendingBackend "t1").2.2 = 1 := by
  have h := c2_lazy_reconciliation_no_timeout c2St 0 c2Rec "t1" "op2" rfl rfl rfl (by decide)
  exact ⟨h.1 61, h.2.1, h.2.2⟩

/-- C3: the VideoJobRequest dataclass declared in backend/models/job.py does
not declare the shorts_style and character_image_urls fields, yet
Jobs.create_job passes both as constructor keyword arguments (TypeError) and
JobService.create_video_job reads both as request attributes
(AttributeError), so a valid creation request cannot reach the
pending-record write and job-id return that the claim describes. -/
theorem c3_dataclass_field_mismatch :
    dataclassCallRaises videoJobRequestFields controllerCreateKwargs = true ∧
    "shorts_style" ∈ controllerCreateKwargs ∧
    "shorts_style" ∉ videoJobRequestFields ∧
    "character_image_urls" ∈ createVideoJobAttrReads ∧
    "character_image_urls" ∉ videoJobRequestFields := by
  decide

/-- C4 counterexample: the resolver's error write-back for a failed backend
operation persists a terminal error record whose job_end_time is absent, and
the executor's failure path likewise persists a terminal error record with
no job_end_time - refuting that every transition into a terminal state
carries job_end_time. -/
theorem c4_end_time_counterexample :
    (storeLookup ((getJobStatus c4St 0 c4ErrBackend "t9").2.1).store 0 = some c4ExpectedRec ∧
     c4ExpectedRec.status = "error" ∧ c4ExpectedRec.job_end_time = none) ∧
    (processVideoJob c4Env c4St0 1 c4Payload "t0" = Except.ok (saveJob c4St0 1 c4ExecRec) ∧
     c4ExecRec.status = "error" ∧ c4ExecRec.job_end_time = none) := by
  decide

/-- C4 amended: job_end_time is set only by the resolver's processing-to-done
write-back; the resolver's error write-back leaves the stored job_end_time
unchanged (absent when it was absent), and every record persisted by the
executor - processing checkpoint or error record - carries no
job_end_time. -/
theorem c4_end_time_only_on_done
    (st : ServiceState) (jobId : Nat) (job : JobRecord)
    (backend : String → BackendOp) (now : String) (opName : String)
    (hload : loadJob st jobId = some job)
    (hstatus : job.status = "processing")
    (hop : job.operation_name = some opName)
    (hopne : opName ≠ "") :
    ((getVideoStatusByName (backend opName)).status = "done" →
      ∃ job', (getJobStatus st jobId backend now).2.1 = saveJob st jobId job' ∧
        job'.status = "done" ∧ job'.job_end_time = some now) ∧
    ((getVideoStatusByName (backend opName)).status = "error" →
      ∃ job', (getJobStatus st jobId backend now).2.1 = saveJob st jobId job' ∧
        job'.status = "error" ∧ job'.job_end_time = job.job_end_time ∧
        job'.error = (getVideoStatusByName (backend opName)).error) ∧
    (∀ env bucket startFrom jobData r,
      processRecord env bucket startFrom jobData = Except.ok r → r.job_end_time = none) := by
  refine ⟨?_, ?_, ?_⟩
  · intro hdone
    refine ⟨{ job with status := "done", video_uri := (getVideoStatusByName (backend opName)).video_url, video_url := resolvedVideoUrl (getVideoStatusByName (backend opName)).video_url, job_end_time := some now }, ?_, rfl, rfl⟩
    rw [getJobStatus_processing_done_branch st jobId job backend now opName
      hload hstatus hop hopne hdone]
  · intro herr
    refine ⟨{ job with status := "error", error := (getVideoStatusByName (backend opName)).error }, ?_, rfl, rfl, rfl⟩
    rw [getJobStatus_processing_error_branch st jobId job backend now opName
      hload hstatus hop hopne herr]
  · intro env bucket startFrom jobData r h
    exact (processRecord_ok_shape env bucket startFrom jobData r h).1

/-- Witness for c4_end_time_only_on_done at the concrete processing record
c4Rec and the failing backend c4ErrBackend, instantiating the error and
executor clauses. -/
theorem c4_end_time_witness :
    (∃ job', (getJobStatus c4St 0 c4ErrBackend "t9").2.1 = saveJob c4St 0 job' ∧
      job'.status = "error" ∧ job'.job_end_time = c4Rec.job_end_time ∧
      job'.error = (getVideoStatusByName (c4ErrBackend "op4")).error) ∧
    c4ExecRec.job_end_time = none := by
  have h := c4_end_time_only_on_done c4St 0 c4Rec c4ErrBackend "t9" "op4" rfl rfl rfl (by decide)
  exact ⟨h.2.1 rfl, h.2.2 c4Env true (some "t0") c4Payload c4ExecRec (by decide)⟩

/-- C5 counterexample: a 200 response whose Content-Type header claims
image/png is accepted as the source image even though its payload fails
magic-byte sniffing - the header alone suffices, refuting that bytes are
used only when they validate by magic-byte sniffing. -/
theorem c5_content_type_counterexample :
    responseOutcome 200 "image/png" [1, 2, 3, 4] = some [1, 2, 3, 4] ∧
    looksLikeImage [1, 2, 3, 4] = false := by
  decide

/-- C5 amended: fetched bytes are used as the starting frame when the
lowercased Content-Type header begins with image/ OR the payload passes
magic-byte sniffing over the PNG/JPEG/GIF/WEBP/AVIF signatures; sniffing is
a fallback rather than a requirement, and a payload failing both checks (or
a non-200 response) is never used. -/
theorem c5_image_acceptance :
    (∀ data : Bytes, looksLikeImage data = imageMagicSpec data) ∧
    (∀ ct : String, ∀ data : Bytes,
      responseOutcome 200 ct data = some data ↔
        (strStartsWith ct "image/" = true ∨ looksLikeImage data = true)) ∧
    (∀ statusCode ct data, statusCode ≠ 200 → responseOutcome statusCode ct data = none) ∧
    (∀ ct data, strStartsWith ct "image/" = false → looksLikeImage data = false →
      responseOutcome 200 ct data = none) := by
  refine ⟨?_, ?_, ?_, ?_⟩
  · intro data
    unfold looksLikeImage imageMagicSpec
    repeat' split
    all_goals simp_all [List.isEmpty_iff, Bool.eq_false_iff]
  · intro ct data
    unfold responseOutcome
    rw [if_neg (by decide : ¬(200 ≠ 200))]
    by_cases h : (strStartsWith ct "image/" || looksLikeImage data) = true
    · rw [if_pos h]
      simp [Bool.or_eq_true] at h
      simp [h]
    · rw [if_neg h]
      simp [Bool.or_eq_true] at h
      simp [h.1, h.2]
  · intro statusCode ct data h
    unfold responseOutcome
    rw [if_pos h]
  · intro ct data h1 h2
    unfold responseOutcome
    rw [if_neg (by decide : ¬(200 ≠ 200)), if_neg (by simp [h1, h2])]

/-- Witness for c5_image_acceptance: magic-byte agreement at a PNG-signature
payload, rejection of a non-200 response, and rejection of a 200 text/html
response whose payload fails sniffing. -/
theorem c5_acceptance_witness :
    looksLikeImage [0x89, 0x50, 0x4E, 0x47, 0x0D, 0x0A, 0x1A, 0x0A, 0] =
      imageMagicSpec [0x89, 0x50, 0x4E, 0x47, 0x0D, 0x0A, 0x1A, 0x0A, 0] ∧
    responseOutcome 404 "image/png" [1] = none ∧
    responseOutcome 200 "text/html" [1, 2, 3, 4] = none := by
  have h := c5_image_acceptance
  exact ⟨h.1 _, h.2.2.1 404 "image/png" [1] (by decide),
    h.2.2.2 "text/html" [1, 2, 3, 4] (by decide) (by decide)⟩

theorem resolveStep_store_shape (st : ServiceState) (jobId : Nat) (job : JobRecord)
    (backend : String → BackendOp) (now : String)
    (hload : loadJob st jobId = some job) :
    (getJobStatus st jobId backend now).2.1 = st ∨
    (job.status = "processing" ∧
      ∃ job', (getJobStatus st jobId backend now).2.1 = saveJob st jobId job' ∧
        (job'.status = "done" ∨ job'.status = "error")) := by
  by_cases g1 : (job.status == "pending" || job.status == "queued") = true
  · left
    simp only [getJobStatus, hload]
    rw [if_pos g1]
  · by_cases g2 : (job.status == "error") = true
    · left
      simp only [getJobStatus, hload]
      rw [if_neg g1, if_pos g2]
    · by_cases g3 : (job.status == "done") = true
      · left
        simp only [getJobStatus, hload]
        rw [if_neg g1, if_neg g2, if_pos g3]
      · by_cases g4 : (job.status == "processing" && pyTruthyStr job.operation_name) = true
        · have hs : job.status = "processing" := by
            have hand : (job.status == "processing") = true ∧
                pyTruthyStr job.operation_name = true := by simpa using g4
            simpa using hand.1
          by_cases r1 : ((getVideoStatusByName (backend (job.operation_name.getD ""))).status == "done") = true
          · right
            refine ⟨hs, { job with status := "done", video_uri := (getVideoStatusByName (backend (job.operation_name.getD ""))).video_url, video_url := resolvedVideoUrl (getVideoStatusByName (backend (job.operation_name.getD ""))).video_url, job_end_time := some now }, ?_, Or.inl rfl⟩
            simp only [getJobStatus, hload]
            rw [if_neg g1, if_neg g2, if_neg g3, if_pos g4, if_pos r1]
          · by_cases r2 : ((getVideoStatusByName (backend (job.operation_name.getD ""))).status == "error") = true
            · right
              refine ⟨hs, { job with status := "error", error := (getVideoStatusByName (backend (job.operation_name.getD ""))).error }, ?_, Or.inr rfl⟩
              simp only [getJobStatus, hload]
              rw [if_neg g1, if_neg g2, if_neg g3, if_pos g4, if_neg r1, if_pos r2]
            · left
              simp only [getJobStatus, hload]
              rw [if_neg g1, if_neg g2, if_neg g3, if_pos g4, if_neg r1, if_neg r2]
        · left
          simp only [getJobStatus, hload]
          rw [if_neg g1, if_neg g2, if_neg g3, if_neg g4]

/-- C6: once a stored record is terminal (done or error), every status call
leaves the service state untouched, performs no backend poll, and returns
the same terminal view regardless of backend or clock; and in general a
status call either leaves the store unchanged or advances a processing
record to a terminal one - the client-visible status never regresses. -/
theorem c6_terminal_idempotent_monotonic
    (st : ServiceState) (jobId : Nat) (job : JobRecord)
    (hload : loadJob st jobId = some job) :
    ((job.status = "done" ∨ job.status = "error") →
      (∀ backend now, (getJobStatus st jobId backend now).2.1 = st ∧
        (getJobStatus st jobId backend now).2.2 = 0 ∧
        ∃ v, (getJobStatus st jobId backend now).1 = some v ∧ v.status = job.status) ∧
      (∀ backend now backend' now',
        (getJobStatus st jobId backend now).1 = (getJobStatus st jobId backend' now').1)) ∧
    (∀ backend now,
      (getJobStatus st jobId backend now).2.1 = st ∨
      (job.status = "processing" ∧
        ∃ job', (getJobStatus st jobId backend now).2.1 = saveJob st jobId job' ∧
          (job'.status = "done" ∨ job'.status = "error"))) := by
  constructor
  · intro hterm
    rcases hterm with h | h
    · constructor
      · intro backend now
        rw [getJobStatus_done_record st jobId job backend now hload h]
        exact ⟨rfl, rfl, _, rfl, h.symm⟩
      · intro backend now backend' now'
        rw [getJobStatus_done_record st jobId job backend now hload h,
            getJobStatus_done_record st jobId job backend' now' hload h]
    · constructor
      · intro backend now
        rw [getJobStatus_error_record st jobId job backend now hload h]
        exact ⟨rfl, rfl, _, rfl, h.symm⟩
      · intro backend now backend' now'
        rw [getJobStatus_error_record st jobId job backend now hload h,
            getJobStatus_error_record st jobId job backend' now' hload h]
  · intro backend now
    exact resolveStep_store_shape st jobId job backend now hload

/-- Witness for c6_terminal_idempotent_monotonic at the concrete terminal
record c6Rec. -/
theorem c6_terminal_witness :
    (getJobStatus c6St 0 pendingBackend "t2").2.1 = c6St ∧
    (getJobStatus c6St 0 pendingBackend "t2").2.2 = 0 ∧
    (∃ v, (getJobStatus c6St 0 pendingBackend "t2").1 = some v ∧ v.status = c6Rec.status) ∧
    ((getJobStatus c6St 0 pendingBackend "t2").2.1 = c6St ∨
      (c6Rec.status = "processing" ∧
        ∃ job', (getJobStatus c6St 0 pendingBackend "t2").2.1 = saveJob c6St 0 job' ∧
          (job'.status = "done" ∨ job'.status = "error"))) := by
  have h := c6_terminal_idempotent_monotonic c6St 0 c6Rec rfl
  have h1 := (h.1 (Or.inl rfl)).1 pendingBackend "t2"
  exact ⟨h1.1, h1.2.1, h1.2.2, h.2 pendingBackend "t2"⟩

theorem processRecord_of_attempt_err (env : ExecEnv) (bucket : Bool) (startFrom : Option String)
    (jd : JobPayload) (m : String) (d : Int)
    (hdur : pyInt 8 jd.duration_seconds = Except.ok d)
    (hatt : processAttempt env bucket startFrom jd = Except.error m) :
    processRecord env bucket startFrom jd = Except.ok (executorErrRecord startFrom jd m d) := by
  unfold processRecord executorErrRecord
  rw [hatt, hdur]

theorem processVideoJob_of_attempt_err (env : ExecEnv) (st : ServiceState) (jobId : Nat)
    (jd : JobPayload) (startTime : String) (m : String) (d : Int)
    (hdur : pyInt 8 jd.duration_seconds = Except.ok d)
    (hatt : processAttempt env st.bucket (startTimeFrom (loadJob st jobId) startTime) jd
      = Except.error m) :
    processVideoJob env st jobId jd startTime =
      Except.ok (saveJob st jobId
        (executorErrRecord (startTimeFrom (loadJob st jobId) startTime) jd m d)) := by
  unfold processVideoJob
  rw [processRecord_of_attempt_err env st.bucket _ jd m d hdur hatt]

theorem sourceFetch_skip (env : ExecEnv) (jd : JobPayload)
    (hsrc : pyTruthyStr jd.source_image_url = false ∨ env.fetchSource = Except.ok none) :
    (if pyTruthyStr jd.source_image_url then env.fetchSource else Except.ok none)
      = Except.ok (none : Option Bytes) := by
  rcases hsrc with hfalse | hfetch
  · rw [hfalse]
    simp
  · rw [hfetch]
    simp [ite_self]

theorem processAttempt_fetch_err (env : ExecEnv) (bucket : Bool) (startFrom : Option String)
    (jd : JobPayload) (t l : String) (d : Int) (m : String)
    (htitle : jd.title = some t)
    (houtcome : (strTrim ((pyOrStr jd.outcome jd.caption).getD "") == "") = false)
    (hlink : jd.original_bet_link = some l)
    (hdur : pyInt 8 jd.duration_seconds = Except.ok d)
    (hsrc : pyTruthyStr jd.source_image_url = true)
    (hfetch : env.fetchSource = Except.error m) :
    processAttempt env bucket startFrom jd = Except.error m := by
  unfold processAttempt
  rw [htitle]
  simp only [houtcome, hlink, hdur]
  rw [if_pos hsrc, hfetch]

theorem processAttempt_gen_err (env : ExecEnv) (bucket : Bool) (startFrom : Option String)
    (jd : JobPayload) (t l : String) (d : Int) (m : String)
    (htitle : jd.title = some t)
    (houtcome : (strTrim ((pyOrStr jd.outcome jd.caption).getD "") == "") = false)
    (hlink : jd.original_bet_link = some l)
    (hdur : pyInt 8 jd.duration_seconds = Except.ok d)
    (hsrc : pyTruthyStr jd.source_image_url = false ∨ env.fetchSource = Except.ok none)
    (hchar : jd.character_image_urls = [])
    (hgen : env.genImage = Except.error m) :
    processAttempt env bucket startFrom jd = Except.error m := by
  unfold processAttempt
  rw [htitle]
  simp only [houtcome, hlink, hdur]
  rw [sourceFetch_skip env jd hsrc]
  simp only [hchar, List.isEmpty_nil, if_true, pyTruthyBytes]
  simp [hgen]

theorem processAttempt_upload_err (env : ExecEnv) (bucket : Bool) (startFrom : Option String)
    (jd : JobPayload) (t l : String) (d : Int) (img : Bytes) (m : String)
    (htitle : jd.title = some t)
    (houtcome : (strTrim ((pyOrStr jd.outcome jd.caption).getD "") == "") = false)
    (hlink : jd.original_bet_link = some l)
    (hdur : pyInt 8 jd.duration_seconds = Except.ok d)
    (hsrc : pyTruthyStr jd.source_image_url = false ∨ env.fetchSource = Except.ok none)
    (hchar : jd.character_image_urls = [])
    (himg : env.genImage = Except.ok img)
    (hbucket : bucket = true)
    (hup : env.uploadImage = Except.error m) :
    processAttempt env bucket startFrom jd = Except.error m := by
  unfold processAttempt
  rw [htitle]
  simp only [houtcome, hlink, hdur]
  rw [sourceFetch_skip env jd hsrc]
  simp only [hchar, List.isEmpty_nil, if_true, pyTruthyBytes]
  simp [himg, hbucket, hup]

theorem processAttempt_submit_err (env : ExecEnv) (bucket : Bool) (startFrom : Option String)
    (jd : JobPayload) (t l : String) (d : Int) (img : Bytes) (m : String)
    (htitle : jd.title = some t)
    (houtcome : (strTrim ((pyOrStr jd.outcome jd.caption).getD "") == "") = false)
    (hlink : jd.original_bet_link = some l)
    (hdur : pyInt 8 jd.duration_seconds = Except.ok d)
    (hsrc : pyTruthyStr jd.source_image_url = false ∨ env.fetchSource = Except.ok none)
    (hchar : jd.character_image_urls = [])
    (himg : env.genImage = Except.ok img)
    (hupOk : bucket = false ∨ ∃ u, env.uploadImage = Except.ok u)
    (hsub : env.submitVideo = Except.error m) :
    processAttempt env bucket startFrom jd = Except.error m := by
  unfold processAttempt
  rw [htitle]
  simp only [houtcome, hlink, hdur]
  rw [sourceFetch_skip env jd hsrc]
  simp only [hchar, List.isEmpty_nil, if_true, pyTruthyBytes]
  rcases hupOk with hb0 | ⟨u, hu⟩
  · subst hb0
    simp [himg, hsub]
  · cases bucket with
    | false => simp [himg, hsub]
    | true => simp [himg, hu, hsub]

/-- C7: for a payload that parses (title and link present, outcome non-blank,
duration convertible), process_video_job never propagates an exception, the
worker-loop step returns its result state, and exactly one record is saved,
with status processing or error.  Whenever any step of the try block raises
with reason m - and in particular when the source-image fetch, the backend
starting-image call, the starting-image upload, or the operation submission
fails - the persisted record is precisely the except-block error record
carrying that reason: status error (never processing), error = some m. -/
theorem c7_executor_error_containment
    (payload : JobPayload) (t l : String) (d : Int)
    (htitle : payload.title = some t)
    (houtcome : (strTrim ((pyOrStr payload.outcome payload.caption).getD "") == "") = false)
    (hlink : payload.original_bet_link = some l)
    (hdur : pyInt 8 payload.duration_seconds = Except.ok d) :
    ∀ env st jobId startTime,
      (∃ st', processVideoJob env st jobId payload startTime = Except.ok st') ∧
      (∀ st', processVideoJob env st jobId payload startTime = Except.ok st' →
        localWorkerStep env st { job_id := jobId, payload := payload } startTime = st' ∧
        ∃ r, st' = saveJob st jobId r ∧
          (r.status = "processing" ∨ (r.status = "error" ∧ r.error ≠ none))) ∧
      (∀ m, processAttempt env st.bucket (startTimeFrom (loadJob st jobId) startTime) payload
          = Except.error m →
        processVideoJob env st jobId payload startTime =
          Except.ok (saveJob st jobId
            (executorErrRecord (startTimeFrom (loadJob st jobId) startTime) payload m d))) ∧
      (∀ sf m2, (executorErrRecord sf payload m2 d).status = "error" ∧
        (executorErrRecord sf payload m2 d).error = some m2 ∧
        (executorErrRecord sf payload m2 d).status ≠ "processing") ∧
      (pyTruthyStr payload.source_image_url = true →
        ∀ m, env.fetchSource = Except.error m →
        processVideoJob env st jobId payload startTime =
          Except.ok (saveJob st jobId
            (executorErrRecord (startTimeFrom (loadJob st jobId) startTime) payload m d))) ∧
      ((pyTruthyStr payload.source_image_url = false ∨ env.fetchSource = Except.ok none) →
        payload.character_image_urls = [] →
        (∀ m, env.genImage = Except.error m →
          processVideoJob env st jobId payload startTime =
            Except.ok (saveJob st jobId
              (executorErrRecord (startTimeFrom (loadJob st jobId) startTime) payload m d))) ∧
        (∀ img m, env.genImage = Except.ok img → st.bucket = true →
          env.uploadImage = Except.error m →
          processVideoJob env st jobId payload startTime =
            Except.ok (saveJob st jobId
              (executorErrRecord (startTimeFrom (loadJob st jobId) startTime) payload m d))) ∧
        (∀ img m, env.genImage = Except.ok img →
          (st.bucket = false ∨ ∃ u, env.uploadImage = Except.ok u) →
          env.submitVideo = Except.error m →
          processVideoJob env st jobId payload startTime =
            Except.ok (saveJob st jobId
              (executorErrRecord (startTimeFrom (loadJob st jobId) startTime) payload m d)))) := by
  intro env st jobId startTime
  refine ⟨?_, ?_, ?_, ?_, ?_, ?_⟩
  · rcases processRecord_ok_of_dur env st.bucket
      (startTimeFrom (loadJob st jobId) startTime) payload d hdur with ⟨r, hr⟩
    refine ⟨saveJob st jobId r, ?_⟩
    unfold processVideoJob
    rw [hr]
  · intro st' h
    rcases processVideoJob_ok_shape env st jobId payload startTime st' h with ⟨r, hst', hrec⟩
    constructor
    · unfold localWorkerStep
      rw [h]
    · refine ⟨r, hst', ?_⟩
      rcases processRecord_ok_shape env st.bucket _ payload r hrec with ⟨_, hcase⟩
      rcases hcase with hp | ⟨he, m, hm⟩
      · exact Or.inl hp
      · exact Or.inr ⟨he, by rw [hm]; exact Option.some_ne_none m⟩
  · intro m hatt
    exact processVideoJob_of_attempt_err env st jobId payload startTime m d hdur hatt
  · intro sf m2
    have hne : ("error" : String) ≠ "processing" := by decide
    exact ⟨rfl, rfl, hne⟩
  · intro hsrcT m hfetch
    exact processVideoJob_of_attempt_err env st jobId payload startTime m d hdur
      (processAttempt_fetch_err env st.bucket _ payload t l d m
        htitle houtcome hlink hdur hsrcT hfetch)
  · intro hsrc hchar
    refine ⟨?_, ?_, ?_⟩
    · intro m hgen
      exact processVideoJob_of_attempt_err env st jobId payload startTime m d hdur
        (processAttempt_gen_err env st.bucket _ payload t l d m
          htitle houtcome hlink hdur hsrc hchar hgen)
    · intro img m himg hbucket hup
      exact processVideoJob_of_attempt_err env st jobId payload startTime m d hdur
        (processAttempt_upload_err env st.bucket _ payload t l d img m
          htitle houtcome hlink hdur hsrc hchar himg hbucket hup)
    · intro img m himg hupOk hsub
      exact processVideoJob_of_attempt_err env st jobId payload startTime m d hdur
        (processAttempt_submit_err env st.bucket _ payload t l d img m
          htitle houtcome hlink hdur hsrc hchar himg hupOk hsub)

/-- Witness for c7_executor_error_containment at the concrete payload
c7Payload: the image-generation, image-upload and operation-submission
failures each persist the exact error record carrying their reason. -/
theorem c7_containment_witness :
    (∃ st', processVideoJob c7Env c7St 0 c7Payload "t0" = Except.ok st') ∧
    processVideoJob c7Env c7St 0 c7Payload "t0" =
      Except.ok (saveJob c7St 0
        (executorErrRecord (startTimeFrom (loadJob c7St 0) "t0") c7Payload "gen boom" 8)) ∧
    processVideoJob c7EnvUp c7St 0 c7Payload "t0" =
      Except.ok (saveJob c7St 0
        (executorErrRecord (startTimeFrom (loadJob c7St 0) "t0") c7Payload "upload boom" 8)) ∧
    processVideoJob c7EnvSub c7St 0 c7Payload "t0" =
      Except.ok (saveJob c7St 0
        (executorErrRecord (startTimeFrom (loadJob c7St 0) "t0") c7Payload "submit boom" 8)) := by
  have h := c7_executor_error_containment c7Payload "X" "http://a" 8 rfl (by decide) rfl rfl
  refine ⟨(h c7Env c7St 0 "t0").1, ?_, ?_, ?_⟩
  · exact ((h c7Env c7St 0 "t0").2.2.2.2.2 (Or.inl rfl) rfl).1 "gen boom" rfl
  · exact ((h c7EnvUp c7St 0 "t0").2.2.2.2.2 (Or.inl rfl) rfl).2.1 [1] "upload boom" rfl rfl rfl
  · exact ((h c7EnvSub c7St 0 "t0").2.2.2.2.2 (Or.inl rfl) rfl).2.2 [1] "submit boom" rfl
      (Or.inr ⟨"gs://b/i.png", rfl⟩) rfl

/-- C8: under the local strategy, when every loop but the one currently
referenced is dead, at most one consumer loop is alive; calling
_ensure_local_worker while the referenced loop is alive is a no-op, starting
one otherwise preserves the at-most-one invariant; and draining the local
queue processes job ids in strictly FIFO order. -/
theorem drainLocal_fifo (env : ExecEnv) (startTime : String) :
    ∀ (n : Nat) (st : ServiceState),
      (drainLocal env startTime n st).2 = (st.localQueue.take n).map QueueItem.job_id := by
  intro n
  induction n with
  | zero =>
    intro st
    simp [drainLocal]
  | succ k ih =>
    intro st
    unfold drainLocal
    cases hq : st.localQueue with
    | nil => simp
    | cons item rest =>
      simp only [hq]
      have hq2 : (localWorkerStep env { st with localQueue := rest } item startTime).localQueue
          = rest := localWorkerStep_localQueue env _ item startTime
      rw [ih, hq2]
      simp

theorem c8_single_worker_fifo
    (st : ServiceState)
    (htail : ∀ b ∈ st.workerTasks.tail, b = false) :
    aliveCount st ≤ 1 ∧
    (st.workerTasks.head? = some true → ensureLocalWorker st = st) ∧
    (aliveCount (ensureLocalWorker st) ≤ 1 ∧
      ∀ b ∈ (ensureLocalWorker st).workerTasks.tail, b = false) ∧
    (∀ env startTime n,
      (drainLocal env startTime n st).2 = (st.localQueue.take n).map QueueItem.job_id) := by
  have hcnt : ∀ ws : List Bool, (∀ b ∈ ws.tail, b = false) →
      ws.countP (fun b => b == true) ≤ 1 := by
    intro ws hws
    cases ws with
    | nil => simp
    | cons a l =>
      have hl : l.countP (fun b => b == true) = 0 := by
        rw [List.countP_eq_zero]
        intro b hb
        simp [hws b hb]
      rw [List.countP_cons, hl]
      cases a <;> simp
  refine ⟨hcnt st.workerTasks htail, ?_, ?_, ?_⟩
  · intro hhead
    unfold ensureLocalWorker
    by_cases h1 : st.cloudTasks = true
    · rw [if_pos h1]
    · rw [if_neg h1, if_pos hhead]
  · unfold ensureLocalWorker
    by_cases h1 : st.cloudTasks = true
    · rw [if_pos h1]
      exact ⟨hcnt st.workerTasks htail, htail⟩
    · rw [if_neg h1]
      by_cases h2 : st.workerTasks.head? = some true
      · rw [if_pos h2]
        exact ⟨hcnt st.workerTasks htail, htail⟩
      · rw [if_neg h2]
        have hall : ∀ b ∈ st.workerTasks, b = false := by
          intro b hb
          cases hws : st.workerTasks with
          | nil =>
            rw [hws] at hb
            cases hb
          | cons a lr =>
            rw [hws] at hb h2 htail
            rcases List.mem_cons.mp hb with rfl | hb2
            · cases b with
              | false => rfl
              | true => exact absurd (by simp) h2
            · exact htail b hb2
        have hz : st.workerTasks.countP (fun b => b == true) = 0 := by
          rw [List.countP_eq_zero]
          intro b hb
          simp [hall b hb]
        constructor
        · have hone : aliveCount { st with workerTasks := true :: st.workerTasks }
              = st.workerTasks.countP (fun b => b == true) + 1 := by
            simp [aliveCount, List.countP_cons]
          rw [hone, hz]
        · intro b hb
          simp only [List.tail_cons] at hb
          exact hall b hb
  · intro env startTime n
    exact drainLocal_fifo env startTime n st

/-- Witness for c8_single_worker_fifo at a state with one live loop and two
queued jobs. -/
theorem c8_fifo_witness :
    aliveCount c8St ≤ 1 ∧
    (c8St.workerTasks.head? = some true → ensureLocalWorker c8St = c8St) ∧
    (drainLocal c8Env "t0" 2 c8St).2 = (c8St.localQueue.take 2).map QueueItem.job_id := by
  have h := c8_single_worker_fifo c8St (by decide)
  exact ⟨h.1, h.2.1, h.2.2.2 c8Env "t0" 2⟩

/-- C9: a create request whose title, outcome or original link is missing or
blank after alias resolution and whitespace stripping is rejected
synchronously with the 400 client error, and the service state is returned
unchanged: no job id is allocated, no record persisted, nothing dispatched. -/
theorem c9_create_validation_rejects
    (st : ServiceState) (body : RequestBody) (now : String)
    (h : strTrim ((coercePayload body).title.getD "") = "" ∨
         strTrim ((coercePayload body).outcome.getD "") = "" ∨
         strTrim ((coercePayload body).original_bet_link.getD "") = "") :
    createEndpoint st body now =
      (CreateResult.clientError "title, outcome, and original_bet_link are required", st) := by
  unfold createEndpoint
  rcases h with h | h | h <;> simp [h]

/-- Witness for c9_create_validation_rejects at a body whose outcome (and its
caption alias) is absent. -/
theorem c9_rejection_witness :
    createEndpoint c9St c9Body "t0" =
      (CreateResult.clientError "title, outcome, and original_bet_link are required", c9St) :=
  c9_create_validation_rejects c9St c9Body "t0" (Or.inr (Or.inl (by decide)))

/-- C10: the claim's create-still-succeeds clause fails on the program:
create_video_job's attribute reads against the declared VideoJobRequest
dataclass raise AttributeError at its first undeclared read (shorts_style)
for every constructible request, before anything is persisted or dispatched,
so no job id is ever returned.  Independent of that slip, the
persistence-disabled behavior the claim describes does hold of the
status machinery: in any bucketless state every get_job_status call returns
the not-found outcome without polling or touching state, the status endpoint
answers 404, and a worker-loop step persists nothing and leaves the state
unchanged. -/
theorem c10_create_raises_and_invisible :
    (∀ (st : ServiceState) (now : String) (req : VideoJobRequestDecl),
      createVideoJobOnDecl st now req = Except.error "AttributeError: shorts_style") ∧
    (∀ st2 : ServiceState, st2.bucket = false →
      (∀ jobId backend now2, getJobStatus st2 jobId backend now2 = (none, st2, 0)) ∧
      (∀ jobId backend now2,
        getStatusEndpoint st2 jobId backend now2 = (StatusResult.notFound, st2)) ∧
      (∀ env item startTime, localWorkerStep env st2 item startTime = st2)) := by
  have hstatus : ∀ st2 : ServiceState, st2.bucket = false →
      ∀ jobId backend now2, getJobStatus st2 jobId backend now2 = (none, st2, (0 : Nat)) := by
    intro st2 h2 jobId backend now2
    simp [getJobStatus, loadJob, h2]
  constructor
  · intro st now req
    rfl
  · intro st2 h2
    refine ⟨hstatus st2 h2, ?_, ?_⟩
    · intro jobId backend now2
      unfold getStatusEndpoint
      rw [hstatus st2 h2 jobId backend now2]
    · intro env item startTime
      unfold localWorkerStep
      split
      case _ st' hok =>
        rcases processVideoJob_ok_shape env st2 item.job_id item.payload startTime st' hok
          with ⟨r, hst', _⟩
        rw [hst', saveJob_no_bucket st2 item.job_id r h2]
      case _ => rfl

/-- Witness for c10_create_raises_and_invisible: the concrete declared-shape
request raises on creation, and the bucketless state reports the job not
found while a worker step changes nothing. -/
theorem c10_raises_witness :
    createVideoJobOnDecl c10St "t0" c10ReqDecl = Except.error "AttributeError: shorts_style" ∧
    getJobStatus c10St 0 pendingBackend "t1" = (none, c10St, 0) ∧
    getStatusEndpoint c10St 0 pendingBackend "t1" = (StatusResult.notFound, c10St) ∧
    localWorkerStep c10Env c10St { job_id := 0, payload := {} } "t0" = c10St := by
  have h := c10_create_raises_and_invisible
  have h2 := h.2 c10St rfl
  exact ⟨h.1 c10St "t0" c10ReqDecl, h2.1 0 pendingBackend "t1",
    h2.2.1 0 pendingBackend "t1", h2.2.2 c10Env { job_id := 0, payload := {} } "t0"⟩

end QhacksJobs
